import Mathlib

/-!
Verification of the Knot DNS DNSSEC key-records / zone-measurement subsystem.

Shallow embedding of:
  * `src/knot/dnssec/key_records.c` (key record sets: add_rdata, to_changeset,
    sign, verify, serialize, deserialize),
  * `src/knot/zone/measure.c` (zone size / max-TTL measurement),
  * `src/libdnssec/key/algorithm.c` (key-size policy table).

External collaborators that the claims depend on but whose code is not part of
the sampled sources (RRset wire serialization, the changeset API, the crypto
signing backend, `knot_validate_rrsigs`, `knot_zone_sign_use_key`, libknot time
helpers) are modelled from the specification, with their doc comments saying so.
C error codes are `Int`s; machine integers are `Nat` with explicit reduction
modulo 2^64 where the C code can wrap.
-/

/-- KNOT_EOK: success return code. -/
def KNOT_EOK : Int := 0

/-- KNOT_EINVAL: invalid parameter (libknot maps it to -errno EINVAL). -/
def KNOT_EINVAL : Int := -22

/-- KNOT_ENOMEM: allocation failure. -/
def KNOT_ENOMEM : Int := -12

/-- KNOT_ESOON_EXPIRE: signatures valid but expiring before the requested
minimum (distinct negative libknot code). -/
def KNOT_ESOON_EXPIRE : Int := -996

/-- DNSSEC_EOK: libdnssec success code. -/
def DNSSEC_EOK : Int := 0

/-- DNSSEC_EINVAL: libdnssec invalid-parameter code. -/
def DNSSEC_EINVAL : Int := -22

/-- DNSSEC_INVALID_KEY_ALGORITHM: libdnssec invalid-algorithm error code. -/
def DNSSEC_INVALID_KEY_ALGORITHM : Int := -10100

/-- KNOT_RRTYPE_RRSIG rr type number. -/
def KNOT_RRTYPE_RRSIG : Nat := 46

/-- KNOT_RRTYPE_DNSKEY rr type number. -/
def KNOT_RRTYPE_DNSKEY : Nat := 48

/-- KNOT_RRTYPE_CDS rr type number. -/
def KNOT_RRTYPE_CDS : Nat := 59

/-- KNOT_RRTYPE_CDNSKEY rr type number. -/
def KNOT_RRTYPE_CDNSKEY : Nat := 60

/-- An RRset as the key-records code uses it: the rr type, the (single,
set-wide) TTL, and the rdataset as a list of rdata, each rdata a byte list.
The owner dname is shared by all four families (the zone apex) and no claim
depends on it, so it is omitted. -/
structure knot_rrset_t where
  rtype : Nat
  ttl : Nat
  rrs : List (List Nat)
deriving Repr, DecidableEq

/-- knot_rrset_empty: an RRset with no rdata counts as empty. -/
def knot_rrset_empty (r : knot_rrset_t) : Bool := r.rrs.isEmpty

/-- key_records_t: the four co-located apex record families
(`src/knot/dnssec/key_records.h`). -/
structure key_records_t where
  dnskey : knot_rrset_t
  cdnskey : knot_rrset_t
  cds : knot_rrset_t
  rrsig : knot_rrset_t
deriving Repr, DecidableEq

/-! ### Binary serialization (claim C1)

`serialize_rrset` / `deserialize_rrset` live in `src/knot/journal/serialization.c`,
which is not among the sampled sources; they are modelled from the spec below.
`key_records_serialize` / `key_records_deserialize` are embedded from
`src/knot/dnssec/key_records.c`. -/

/-- Big-endian fixed-width byte encoding of a natural number: `encBE w n` is
the `w` low-order base-256 digits of `n`, most significant first. -/
def encBE : Nat → Nat → List Nat
  | 0, _ => []
  | w + 1, n => encBE w (n / 256) ++ [n % 256]

/-- Fold a big-endian byte list back into a number. -/
def decBE (bs : List Nat) : Nat := bs.foldl (fun a b => a * 256 + b) 0

/-- Read `w` bytes from the front of a stream as a big-endian number; `none`
on truncation. -/
def readBE (w : Nat) (bs : List Nat) : Option (Nat × List Nat) :=
  if bs.length < w then none else some (decBE (bs.take w), bs.drop w)

/-- Modelled from the spec: one rdata in the wire encoding is length-prefixed
(16-bit length, then the raw bytes). -/
def encRdata (rd : List Nat) : List Nat := encBE 2 rd.length ++ rd

/-- Modelled from the spec: read one length-prefixed rdata; decode error
(`none`) on truncation. -/
def readRdata (bs : List Nat) : Option (List Nat × List Nat) :=
  (readBE 2 bs).bind fun p =>
    if p.2.length < p.1 then none else some (p.2.take p.1, p.2.drop p.1)

/-- Read `c` consecutive length-prefixed rdata. -/
def readRdatas : Nat → List Nat → Option (List (List Nat) × List Nat)
  | 0, bs => some ([], bs)
  | c + 1, bs =>
    (readRdata bs).bind fun p =>
      (readRdatas c p.2).map fun q => (p.1 :: q.1, q.2)

/-- Modelled from the spec: `serialize_rrset` of `src/knot/journal/serialization.c`
(missing from the sampled sources). Fixed binary encoding of one RRset: type,
TTL, rdata count, then each rdata length-prefixed; independently
round-trippable. (Wire-capacity failures are outside this pure model.) -/
def serialize_rrset (r : knot_rrset_t) : List Nat :=
  encBE 2 r.rtype ++ encBE 4 r.ttl ++ encBE 2 r.rrs.length ++
    (r.rrs.map encRdata).flatten

/-- Modelled from the spec: `deserialize_rrset` of
`src/knot/journal/serialization.c` (missing from the sampled sources). Parses
the encoding of `serialize_rrset` back, failing with a decode error (`none`)
on truncation. -/
def deserialize_rrset (bs : List Nat) : Option (knot_rrset_t × List Nat) :=
  (readBE 2 bs).bind fun p1 =>
    (readBE 4 p1.2).bind fun p2 =>
      (readBE 2 p2.2).bind fun p3 =>
        (readRdatas p3.1 p3.2).map fun p4 =>
          (⟨p1.1, p2.1, p4.1⟩, p4.2)

/-- Embeds `key_records_serialize` (`key_records.c`): the four families in the fixed
order DNSKEY, CDNSKEY, CDS, RRSIG. (In C each step can only fail on wire
overflow, which the pure byte-list model has no counterpart of.) -/
def key_records_serialize (r : key_records_t) : List Nat :=
  serialize_rrset r.dnskey ++ serialize_rrset r.cdnskey ++
    serialize_rrset r.cds ++ serialize_rrset r.rrsig

/-- Embeds `key_records_deserialize` (`key_records.c`): deserialize the four families
in the same fixed order, stopping at the first decode error. -/
def key_records_deserialize (bs : List Nat) : Option (key_records_t × List Nat) :=
  (deserialize_rrset bs).bind fun p1 =>
    (deserialize_rrset p1.2).bind fun p2 =>
      (deserialize_rrset p2.2).bind fun p3 =>
        (deserialize_rrset p3.2).map fun p4 =>
          (⟨p1.1, p2.1, p3.1, p4.1⟩, p4.2)

/-- Well-formedness for the wire encoding: every field fits its fixed width. -/
def rrset_wf (r : knot_rrset_t) : Prop :=
  r.rtype < 65536 ∧ r.ttl < 4294967296 ∧ r.rrs.length < 65536 ∧
    ∀ rd ∈ r.rrs, rd.length < 65536

instance (r : knot_rrset_t) : Decidable (rrset_wf r) := by
  unfold rrset_wf; infer_instance

/-- Width of the big-endian encoding. -/
theorem encBE_length (w n : Nat) : (encBE w n).length = w := by
  induction w generalizing n with
  | zero => rfl
  | succ w ih => simp [encBE, ih]

theorem decBE_aux (w n a : Nat) (h : n < 256 ^ w) :
    List.foldl (fun x b => x * 256 + b) a (encBE w n) = a * 256 ^ w + n := by
  induction w generalizing n a with
  | zero =>
    interval_cases n
    simp [encBE]
  | succ w ih =>
    have hdiv : n / 256 < 256 ^ w := by
      apply Nat.div_lt_of_lt_mul
      calc n < 256 ^ (w + 1) := h
        _ = 256 * 256 ^ w := by ring
    simp only [encBE, List.foldl_append, ih (n / 256) a hdiv, List.foldl]
    have hmod := Nat.div_add_mod n 256
    calc (a * 256 ^ w + n / 256) * 256 + n % 256
        = a * (256 ^ w * 256) + (256 * (n / 256) + n % 256) := by ring
      _ = a * 256 ^ (w + 1) + n := by rw [hmod]; ring

theorem decBE_encBE (w n : Nat) (h : n < 256 ^ w) : decBE (encBE w n) = n := by
  have := decBE_aux w n 0 h
  simpa [decBE] using this

theorem readBE_encBE (w n : Nat) (rest : List Nat) (h : n < 256 ^ w) :
    readBE w (encBE w n ++ rest) = some (n, rest) := by
  have hlen : (encBE w n).length = w := encBE_length w n
  unfold readBE
  rw [if_neg, List.take_left' hlen, List.drop_left' hlen, decBE_encBE w n h]
  simp [hlen]

theorem readRdata_encRdata (rd rest : List Nat) (h : rd.length < 65536) :
    readRdata (encRdata rd ++ rest) = some (rd, rest) := by
  have h2 : rd.length < 256 ^ 2 := by omega
  unfold readRdata encRdata
  rw [List.append_assoc, readBE_encBE 2 rd.length (rd ++ rest) h2,
    Option.some_bind]
  simp only [List.take_left' rfl, List.drop_left' rfl]
  rw [if_neg (by rw [List.length_append]; omega)]

theorem readRdatas_enc (l : List (List Nat)) (rest : List Nat)
    (h : ∀ rd ∈ l, rd.length < 65536) :
    readRdatas l.length ((l.map encRdata).flatten ++ rest) = some (l, rest) := by
  induction l with
  | nil => simp [readRdatas]
  | cons rd l ih =>
    have hrd : rd.length < 65536 := h rd (by simp)
    have hl : ∀ x ∈ l, x.length < 65536 := fun x hx => h x (by simp [hx])
    have harg : ((rd :: l).map encRdata).flatten ++ rest =
        encRdata rd ++ ((l.map encRdata).flatten ++ rest) := by simp
    simp only [List.length_cons, readRdatas, harg,
      readRdata_encRdata rd _ hrd, Option.some_bind, ih hl, Option.map_some']

theorem deserialize_serialize_rrset (r : knot_rrset_t) (rest : List Nat)
    (h : rrset_wf r) :
    deserialize_rrset (serialize_rrset r ++ rest) = some (r, rest) := by
  obtain ⟨h1, h2, h3, h4⟩ := h
  have h1' : r.rtype < 256 ^ 2 := by omega
  have h2' : r.ttl < 256 ^ 4 := by norm_num; omega
  have h3' : r.rrs.length < 256 ^ 2 := by omega
  unfold deserialize_rrset serialize_rrset
  rw [List.append_assoc, List.append_assoc, List.append_assoc,
    readBE_encBE 2 r.rtype _ h1', Option.some_bind,
    readBE_encBE 4 r.ttl _ h2', Option.some_bind,
    readBE_encBE 2 r.rrs.length _ h3', Option.some_bind,
    readRdatas_enc r.rrs rest h4, Option.map_some']

/-- Well-formedness of all four families. -/
def key_records_wf (r : key_records_t) : Prop :=
  rrset_wf r.dnskey ∧ rrset_wf r.cdnskey ∧ rrset_wf r.cds ∧ rrset_wf r.rrsig

instance (r : key_records_t) : Decidable (key_records_wf r) := by
  unfold key_records_wf; infer_instance

/-- C1: for every key-record set (empty or populated) whose fields fit the
fixed wire widths, `key_records_serialize` followed by
`key_records_deserialize` reproduces the record set — in particular
byte-identical RDATA for all four families — the families being encoded and
decoded in the fixed order DNSKEY, CDNSKEY, CDS, RRSIG. -/
theorem key_records_serialize_roundtrip (r : key_records_t)
    (h : key_records_wf r) :
    key_records_deserialize (key_records_serialize r) = some (r, []) := by
  obtain ⟨h1, h2, h3, h4⟩ := h
  have h4' := deserialize_serialize_rrset r.rrsig [] h4
  rw [List.append_nil] at h4'
  unfold key_records_serialize key_records_deserialize
  rw [List.append_assoc, List.append_assoc,
    deserialize_serialize_rrset r.dnskey _ h1, Option.some_bind,
    deserialize_serialize_rrset r.cdnskey _ h2, Option.some_bind,
    deserialize_serialize_rrset r.cds _ h3, Option.some_bind,
    h4', Option.map_some']

/-- C1 witness: the round trip evaluated at a concrete populated record set. -/
theorem key_records_serialize_roundtrip_witness :
    key_records_deserialize (key_records_serialize
      ⟨⟨KNOT_RRTYPE_DNSKEY, 3600, [[1, 2, 3], [4, 5]]⟩,
       ⟨KNOT_RRTYPE_CDNSKEY, 0, [[6]]⟩,
       ⟨KNOT_RRTYPE_CDS, 0, []⟩,
       ⟨KNOT_RRTYPE_RRSIG, 3600, [[7, 8, 9, 10]]⟩⟩) =
    some (⟨⟨KNOT_RRTYPE_DNSKEY, 3600, [[1, 2, 3], [4, 5]]⟩,
       ⟨KNOT_RRTYPE_CDNSKEY, 0, [[6]]⟩,
       ⟨KNOT_RRTYPE_CDS, 0, []⟩,
       ⟨KNOT_RRTYPE_RRSIG, 3600, [[7, 8, 9, 10]]⟩⟩, []) :=
  key_records_serialize_roundtrip _ (by decide)

/-! ### Adding rdata (claim C4) -/

/-- Modelled from the spec: `knot_rrset_add_rdata` (libknot, external
collaborator): appends one RDATA instance to the rdataset. Allocation failure,
its only C failure mode, is treated as fatal by the spec and is outside the
pure model, so the call returns KNOT_EOK. -/
def knot_rrset_add_rdata (r : knot_rrset_t) (rdata : List Nat) :
    Int × knot_rrset_t :=
  (KNOT_EOK, { r with rrs := r.rrs ++ [rdata] })

/-- The tail of `key_records_add_rdata` after the switch selected `to_add`:
add the rdata, and if that returned KNOT_EOK refresh the family TTL. -/
def add_rdata_to (rr : knot_rrset_t) (rdata : List Nat) (ttl : Nat) :
    Int × knot_rrset_t :=
  let p := knot_rrset_add_rdata rr rdata
  if p.1 = KNOT_EOK then (p.1, { p.2 with ttl := ttl }) else p

/-- Embeds `key_records_add_rdata` (`key_records.c`): dispatch on the rr type to one
of the four families, KNOT_EINVAL otherwise. -/
def key_records_add_rdata (r : key_records_t) (rrtype : Nat)
    (rdata : List Nat) (ttl : Nat) : Int × key_records_t :=
  if rrtype = KNOT_RRTYPE_DNSKEY then
    let p := add_rdata_to r.dnskey rdata ttl
    (p.1, { r with dnskey := p.2 })
  else if rrtype = KNOT_RRTYPE_CDNSKEY then
    let p := add_rdata_to r.cdnskey rdata ttl
    (p.1, { r with cdnskey := p.2 })
  else if rrtype = KNOT_RRTYPE_CDS then
    let p := add_rdata_to r.cds rdata ttl
    (p.1, { r with cds := p.2 })
  else if rrtype = KNOT_RRTYPE_RRSIG then
    let p := add_rdata_to r.rrsig rdata ttl
    (p.1, { r with rrsig := p.2 })
  else (KNOT_EINVAL, r)

/-- C4: for every RR type other than DNSKEY, CDNSKEY, CDS and RRSIG,
`key_records_add_rdata` fails with KNOT_EINVAL and leaves the record set
unchanged; for each of the four types, the (successful) addition appends the
rdata to the matching family and sets that family's TTL to the supplied
value, leaving the other families untouched. -/
theorem key_records_add_rdata_spec (r : key_records_t) (rrtype : Nat)
    (rdata : List Nat) (ttl : Nat) :
    (rrtype ∉ [KNOT_RRTYPE_DNSKEY, KNOT_RRTYPE_CDNSKEY, KNOT_RRTYPE_CDS,
        KNOT_RRTYPE_RRSIG] →
      key_records_add_rdata r rrtype rdata ttl = (KNOT_EINVAL, r)) ∧
    key_records_add_rdata r KNOT_RRTYPE_DNSKEY rdata ttl =
      (KNOT_EOK, { r with dnskey := ⟨r.dnskey.rtype, ttl, r.dnskey.rrs ++ [rdata]⟩ }) ∧
    key_records_add_rdata r KNOT_RRTYPE_CDNSKEY rdata ttl =
      (KNOT_EOK, { r with cdnskey := ⟨r.cdnskey.rtype, ttl, r.cdnskey.rrs ++ [rdata]⟩ }) ∧
    key_records_add_rdata r KNOT_RRTYPE_CDS rdata ttl =
      (KNOT_EOK, { r with cds := ⟨r.cds.rtype, ttl, r.cds.rrs ++ [rdata]⟩ }) ∧
    key_records_add_rdata r KNOT_RRTYPE_RRSIG rdata ttl =
      (KNOT_EOK, { r with rrsig := ⟨r.rrsig.rtype, ttl, r.rrsig.rrs ++ [rdata]⟩ }) := by
  refine ⟨fun hne => ?_, ?_, ?_, ?_, ?_⟩ <;>
    simp_all [key_records_add_rdata, add_rdata_to, knot_rrset_add_rdata,
      KNOT_RRTYPE_DNSKEY, KNOT_RRTYPE_CDNSKEY, KNOT_RRTYPE_CDS,
      KNOT_RRTYPE_RRSIG, KNOT_EOK, KNOT_EINVAL]

/-- C4 witness: an A record (type 1) is rejected and a DNSKEY rdata lands in
the DNSKEY family with the supplied TTL, at a concrete record set. -/
theorem key_records_add_rdata_spec_witness :
    key_records_add_rdata
        ⟨⟨48, 3600, []⟩, ⟨60, 0, []⟩, ⟨59, 0, []⟩, ⟨46, 3600, []⟩⟩
        1 [9] 300 =
      (KNOT_EINVAL, ⟨⟨48, 3600, []⟩, ⟨60, 0, []⟩, ⟨59, 0, []⟩, ⟨46, 3600, []⟩⟩) ∧
    key_records_add_rdata
        ⟨⟨48, 3600, []⟩, ⟨60, 0, []⟩, ⟨59, 0, []⟩, ⟨46, 3600, []⟩⟩
        KNOT_RRTYPE_DNSKEY [9] 300 =
      (KNOT_EOK, ⟨⟨48, 300, [[9]]⟩, ⟨60, 0, []⟩, ⟨59, 0, []⟩, ⟨46, 3600, []⟩⟩) :=
  ⟨(key_records_add_rdata_spec _ 1 [9] 300).1 (by decide),
   (key_records_add_rdata_spec ⟨⟨48, 3600, []⟩, ⟨60, 0, []⟩, ⟨59, 0, []⟩,
      ⟨46, 3600, []⟩⟩ 1 [9] 300).2.1⟩

/-! ### Staging into a changeset (claim C5) -/

/-- One staged changeset entry: removal flag, changeset flags, the RRset. -/
structure changeset_entry where
  rem : Bool
  flag : Nat
  rr : knot_rrset_t
deriving Repr, DecidableEq

/-- Modelled from the spec: the external changeset-append API can fail; the
oracle fixes the return code of each `(rrset, removal?)` append call. -/
structure ChangesetOracle where
  res : knot_rrset_t → Bool → Int

/-- Modelled from the spec: `changeset_add_addition` (external changeset API):
appends the RRset as an addition tagged with the flags; on error the changeset
is not extended. -/
def changeset_add_addition (o : ChangesetOracle) (ch : List changeset_entry)
    (rr : knot_rrset_t) (fl : Nat) : Int × List changeset_entry :=
  if o.res rr false = KNOT_EOK then (KNOT_EOK, ch ++ [⟨false, fl, rr⟩])
  else (o.res rr false, ch)

/-- Modelled from the spec: `changeset_add_removal` (external changeset API):
appends the RRset as a removal tagged with the flags; on error the changeset
is not extended. -/
def changeset_add_removal (o : ChangesetOracle) (ch : List changeset_entry)
    (rr : knot_rrset_t) (fl : Nat) : Int × List changeset_entry :=
  if o.res rr true = KNOT_EOK then (KNOT_EOK, ch ++ [⟨true, fl, rr⟩])
  else (o.res rr true, ch)

/-- Embeds `add_one` (`key_records.c`): append one family unless an earlier step
already failed or the family is empty. -/
def add_one (o : ChangesetOracle) (rr : knot_rrset_t)
    (ch : List changeset_entry) (rem : Bool) (fl : Nat) (ret : Int) :
    Int × List changeset_entry :=
  if ret = KNOT_EOK ∧ ¬knot_rrset_empty rr then
    if rem then changeset_add_removal o ch rr fl
    else changeset_add_addition o ch rr fl
  else (ret, ch)

/-- Embeds `key_records_to_changeset` (`key_records.c`): DNSKEY, then CDNSKEY, then
CDS; the RRSIG family is never offered. -/
def key_records_to_changeset (o : ChangesetOracle) (r : key_records_t)
    (ch : List changeset_entry) (rem : Bool) (chfl : Nat) :
    Int × List changeset_entry :=
  let st := add_one o r.dnskey ch rem chfl KNOT_EOK
  let st := add_one o r.cdnskey st.2 rem chfl st.1
  add_one o r.cds st.2 rem chfl st.1

/-- The claim's description of `to_changeset`: for each non-empty family in
the fixed order, append it into the changeset as an addition or removal
according to `rem`, tagged with the flags; skip empty families; on the first
append error stop, leave the remaining families out, and return that error. -/
def to_changeset_claim (o : ChangesetOracle) :
    List knot_rrset_t → List changeset_entry → Bool → Nat →
      Int × List changeset_entry
  | [], ch, _, _ => (KNOT_EOK, ch)
  | f :: fs, ch, rem, fl =>
    if knot_rrset_empty f then to_changeset_claim o fs ch rem fl
    else if o.res f rem = KNOT_EOK then
      to_changeset_claim o fs (ch ++ [⟨rem, fl, f⟩]) rem fl
    else (o.res f rem, ch)

/-- C5: `key_records_to_changeset` behaves exactly as the claim describes on
the family list DNSKEY, CDNSKEY, CDS — non-empty families are appended in
order as additions or removals per `rem` tagged with the flags, empty families
are skipped, RRSIG is never offered, and the first append error short-circuits
and is returned. -/
theorem key_records_to_changeset_spec (o : ChangesetOracle)
    (r : key_records_t) (ch : List changeset_entry) (rem : Bool) (chfl : Nat) :
    key_records_to_changeset o r ch rem chfl =
      to_changeset_claim o [r.dnskey, r.cdnskey, r.cds] ch rem chfl := by
  by_cases h1 : knot_rrset_empty r.dnskey <;>
  by_cases h2 : knot_rrset_empty r.cdnskey <;>
  by_cases h3 : knot_rrset_empty r.cds <;>
  by_cases d1 : o.res r.dnskey rem = KNOT_EOK <;>
  by_cases d2 : o.res r.cdnskey rem = KNOT_EOK <;>
  by_cases d3 : o.res r.cds rem = KNOT_EOK <;>
  cases rem <;>
  simp_all [key_records_to_changeset, to_changeset_claim, add_one,
    changeset_add_addition, changeset_add_removal]

/-! ### Signing the families (claim C2) -/

/-- Modelled from the spec: a zone key as the eligibility rule sees it — the
role flags (a CSK sets both) and whether the key is within its active signing
window at the context's current time. -/
structure zone_key_t where
  is_ksk : Bool
  is_zsk : Bool
  active : Bool

/-- Modelled from the spec: `knot_zone_sign_use_key` (declared in
`src/knot/dnssec/zone-sign.h`; its body is not among the sampled sources).
Eligibility rule of spec 4.3: a key may sign the rrset iff it is within its
active window and its role matches the covered type — KSK/CSK sign
DNSKEY/CDNSKEY/CDS, ZSK/CSK sign every other type. -/
def knot_zone_sign_use_key (key : zone_key_t) (covered : knot_rrset_t) : Bool :=
  key.active &&
    (if covered.rtype = KNOT_RRTYPE_DNSKEY ∨ covered.rtype = KNOT_RRTYPE_CDNSKEY ∨
        covered.rtype = KNOT_RRTYPE_CDS
     then key.is_ksk else key.is_zsk)

/-- Modelled from the spec: the crypto signing backend abstracted as an
oracle — for a covered RRset it either computes the RRSIG rdata (when `res`
yields KNOT_EOK) or fails with that backend error code. -/
structure SignOracle where
  res : knot_rrset_t → Int
  sig : knot_rrset_t → List Nat

/-- Modelled from the spec: `knot_sign_rrset` (`src/knot/dnssec/rrset-sign.c`,
not among the sampled sources): computes exactly one RRSIG covering the rrset
and appends it to the RRSIG rrset; a backend failure is propagated and
appends nothing. -/
def knot_sign_rrset (o : SignOracle) (rrsigs covered : knot_rrset_t) :
    Int × knot_rrset_t :=
  if o.res covered = KNOT_EOK then
    (KNOT_EOK, { rrsigs with rrs := rrsigs.rrs ++ [o.sig covered] })
  else (o.res covered, rrsigs)

/-- Embeds `key_records_sign` (`key_records.c`): `newRet` is the already-converted
result of `dnssec_sign_new`. The source's DNSKEY branch overwrites `ret`
without checking it first, and that is mirrored here exactly. -/
def key_records_sign (o : SignOracle) (newRet : Int) (key : zone_key_t)
    (r : key_records_t) : Int × key_records_t :=
  let st := (newRet, r.rrsig)
  let st := if !knot_rrset_empty r.dnskey && knot_zone_sign_use_key key r.dnskey
            then knot_sign_rrset o st.2 r.dnskey else st
  let st := if st.1 == KNOT_EOK && !knot_rrset_empty r.cdnskey &&
                knot_zone_sign_use_key key r.cdnskey
            then knot_sign_rrset o st.2 r.cdnskey else st
  let st := if st.1 == KNOT_EOK && !knot_rrset_empty r.cds &&
                knot_zone_sign_use_key key r.cds
            then knot_sign_rrset o st.2 r.cds else st
  (st.1, { r with rrsig := st.2 })

/-- The claim's description of `sign`: walk the three non-RRSIG families in
the order DNSKEY, CDNSKEY, CDS; for each that is non-empty and that the key is
eligible to sign per `knot_zone_sign_use_key`, compute an RRSIG and append it
to the RRSIG family (so all three may receive RRSIGs from the same key in one
call); a signing-backend error is returned and stops the remaining families. -/
def sign_claim (o : SignOracle) (key : zone_key_t) :
    List knot_rrset_t → knot_rrset_t → Int × knot_rrset_t
  | [], rrsigs => (KNOT_EOK, rrsigs)
  | f :: fs, rrsigs =>
    if !knot_rrset_empty f && knot_zone_sign_use_key key f then
      if o.res f = KNOT_EOK then
        sign_claim o key fs { rrsigs with rrs := rrsigs.rrs ++ [o.sig f] }
      else (o.res f, rrsigs)
    else sign_claim o key fs rrsigs

/-- One step of `key_records_sign` (for the proof): sign one family if no
earlier error occurred, the family is non-empty, and the key is eligible. -/
def sign_step (o : SignOracle) (key : zone_key_t) (st : Int × knot_rrset_t)
    (f : knot_rrset_t) : Int × knot_rrset_t :=
  if st.1 == KNOT_EOK && !knot_rrset_empty f && knot_zone_sign_use_key key f
  then knot_sign_rrset o st.2 f else st

theorem sign_foldl_err (o : SignOracle) (key : zone_key_t)
    (fs : List knot_rrset_t) (st : Int × knot_rrset_t)
    (h : st.1 ≠ KNOT_EOK) : List.foldl (sign_step o key) st fs = st := by
  induction fs with
  | nil => rfl
  | cons f fs ih =>
    have hstep : sign_step o key st f = st := by simp [sign_step, h]
    rw [List.foldl_cons, hstep, ih]

theorem sign_foldl_claim (o : SignOracle) (key : zone_key_t)
    (fs : List knot_rrset_t) (rrsigs : knot_rrset_t) :
    List.foldl (sign_step o key) (KNOT_EOK, rrsigs) fs =
      sign_claim o key fs rrsigs := by
  induction fs generalizing rrsigs with
  | nil => rfl
  | cons f fs ih =>
    rw [List.foldl_cons]
    by_cases hc : (!knot_rrset_empty f && knot_zone_sign_use_key key f) = true
    · by_cases hr : o.res f = KNOT_EOK
      · have hstep : sign_step o key (KNOT_EOK, rrsigs) f =
            (KNOT_EOK, { rrsigs with rrs := rrsigs.rrs ++ [o.sig f] }) := by
          simp [sign_step, hc, knot_sign_rrset, hr]
        rw [hstep, ih]
        simp [sign_claim, hc, hr]
      · have hstep : sign_step o key (KNOT_EOK, rrsigs) f =
            (o.res f, rrsigs) := by
          simp [sign_step, hc, knot_sign_rrset, hr]
        rw [hstep, sign_foldl_err o key fs _ (by simpa using hr)]
        simp [sign_claim, hc, hr]
    · have hstep : sign_step o key (KNOT_EOK, rrsigs) f = (KNOT_EOK, rrsigs) := by
        simp [sign_step, hc]
      rw [hstep, ih]
      simp [sign_claim, hc]

/-- C2: when the signing context is created successfully, `key_records_sign`
appends an RRSIG to the RRSIG family for exactly the non-empty families among
DNSKEY, CDNSKEY, CDS that the key is eligible for per the use_key rule, in
that order (all three possibly from the same key in one call); the first
signing-backend error is returned and stops the remaining families; the three
non-RRSIG families are left unchanged. -/
theorem key_records_sign_spec (o : SignOracle) (key : zone_key_t)
    (r : key_records_t) :
    key_records_sign o KNOT_EOK key r =
      (let s := sign_claim o key [r.dnskey, r.cdnskey, r.cds] r.rrsig
       (s.1, { r with rrsig := s.2 })) := by
  have hfold : key_records_sign o KNOT_EOK key r =
      (let st := List.foldl (sign_step o key) (KNOT_EOK, r.rrsig)
        [r.dnskey, r.cdnskey, r.cds]
       (st.1, { r with rrsig := st.2 })) := by
    simp only [List.foldl_cons, List.foldl_nil, key_records_sign, sign_step,
      beq_self_eq_true, Bool.true_and]
  rw [hfold]
  simp only [sign_foldl_claim]

/-! ### Verifying the families (claims C3 and C10) -/

/-- The fields of `kdnssec_ctx_t` that `key_records_verify` touches: the
advancing current time, and the keytag-conflict flag reported when reloading
the keyset from the DNSKEY rdata. -/
structure kdnssec_ctx_t where
  now : Nat
  keytag_conflict : Bool

/-- Modelled from the spec: libknot `knot_time_min` (the repository's time
helpers are not among the sampled sources) — the spec's "earliest" of two
expiry timestamps, under the knot_time_t convention that 0 means infinity. -/
def knot_time_min (a b : Nat) : Nat :=
  if a = 0 then b else if b = 0 then a else min a b

/-- Modelled from the spec: libknot `knot_time_lt` — the spec's "is before",
under the knot_time_t convention that 0 means infinity. -/
def knot_time_lt (a b : Nat) : Bool :=
  if a = 0 then false else if b = 0 then true else decide (a < b)

/-- Modelled from the spec: the collaborators of `key_records_verify`
abstracted as an oracle — the result of `kasp_zone_keys_from_rr` and the
keytag-conflict flag it reports, whether `zone_validation_ctx` allocation
succeeds, and for each of the three validated families (0 = DNSKEY,
1 = CDNSKEY, 2 = CDS) the result of `knot_validate_rrsigs` and that family's
soonest signature expiry. -/
structure VerifyOracle where
  keys_res : Int
  conflict : Bool
  ctx_ok : Bool
  val_res : Fin 3 → Int
  val_until : Fin 3 → Nat

/-- Modelled from the spec: `knot_validate_rrsigs` (declared in
`src/knot/dnssec/zone-sign.h`; its body is not among the sampled sources):
validates the RRSIGs covering one family and, on success, lowers the
accumulated `valid_until` to the family's soonest signature expiry. -/
def knot_validate_rrsigs (o : VerifyOracle) (i : Fin 3) (untl : Nat) :
    Int × Nat :=
  if o.val_res i = KNOT_EOK then (KNOT_EOK, knot_time_min untl (o.val_until i))
  else (o.val_res i, untl)

/-- The validation sequence inside `key_records_verify` (`key_records.c`):
validate the DNSKEY family always, then CDNSKEY and CDS when present,
accumulating the soonest signature expiry, stopping at the first failure. -/
def verify_families (o : VerifyOracle) (r : key_records_t) : Int × Nat :=
  let st := knot_validate_rrsigs o 0 0
  let st := if st.1 == KNOT_EOK && !knot_rrset_empty r.cdnskey
            then knot_validate_rrsigs o 1 st.2 else st
  if st.1 == KNOT_EOK && !knot_rrset_empty r.cds
  then knot_validate_rrsigs o 2 st.2 else st

/-- Embeds `key_records_verify` (`key_records.c`): sets `kctx.now` to the supplied
timestamp, reloads the keyset from the DNSKEY rdata, builds a validation
context, validates the families via `verify_families`, and finally flags
KNOT_ESOON_EXPIRE when the accumulated soonest expiry is before `min_valid`.
Returns the error code and the mutated context. -/
def key_records_verify (o : VerifyOracle) (r : key_records_t)
    (kctx : kdnssec_ctx_t) (timestamp min_valid : Nat) :
    Int × kdnssec_ctx_t :=
  let kctx := { kctx with now := timestamp }
  if o.keys_res ≠ KNOT_EOK then (o.keys_res, kctx)
  else
    let kctx := { kctx with keytag_conflict := o.conflict }
    if ¬o.ctx_ok then (KNOT_ENOMEM, kctx)
    else
      let st := verify_families o r
      if st.1 == KNOT_EOK && knot_time_lt st.2 min_valid
      then (KNOT_ESOON_EXPIRE, kctx)
      else (st.1, kctx)

/-- C3: when the keyset reload and validation-context allocation succeed and
every per-family RRSIG validation succeeds, `key_records_verify` returns
KNOT_ESOON_EXPIRE exactly when the earliest signature expiry collected across
the validated families (DNSKEY always, CDNSKEY/CDS when present) is before
`min_valid`, and KNOT_EOK otherwise. -/
theorem key_records_verify_soon_expire (o : VerifyOracle) (r : key_records_t)
    (kctx : kdnssec_ctx_t) (timestamp min_valid : Nat)
    (hk : o.keys_res = KNOT_EOK) (hc : o.ctx_ok = true)
    (hv : ∀ i : Fin 3, o.val_res i = KNOT_EOK) :
    (key_records_verify o r kctx timestamp min_valid).1 =
      (let u1 := o.val_until 0
       let u2 := if knot_rrset_empty r.cdnskey then u1
                 else knot_time_min u1 (o.val_until 1)
       let earliest := if knot_rrset_empty r.cds then u2
                 else knot_time_min u2 (o.val_until 2)
       if knot_time_lt earliest min_valid then KNOT_ESOON_EXPIRE
       else KNOT_EOK) := by
  have h0 := hv 0
  have h1 := hv 1
  have h2 := hv 2
  have hfam : verify_families o r =
      (KNOT_EOK,
        let u1 := o.val_until 0
        let u2 := if knot_rrset_empty r.cdnskey then u1
                  else knot_time_min u1 (o.val_until 1)
        if knot_rrset_empty r.cds then u2
        else knot_time_min u2 (o.val_until 2)) := by
    by_cases e1 : knot_rrset_empty r.cdnskey <;>
    by_cases e2 : knot_rrset_empty r.cds <;>
    simp_all [verify_families, knot_validate_rrsigs, knot_time_min]
  simp only [key_records_verify, hfam, hk, hc]
  cases hlt : knot_time_lt
      (let u1 := o.val_until 0
       let u2 := if knot_rrset_empty r.cdnskey then u1
                 else knot_time_min u1 (o.val_until 1)
       if knot_rrset_empty r.cds then u2
       else knot_time_min u2 (o.val_until 2)) min_valid <;>
    simp_all

/-- C3 witness: a concrete all-valid verification whose earliest expiry (100)
is before min_valid (200), yielding KNOT_ESOON_EXPIRE. -/
theorem key_records_verify_soon_expire_witness :
    (key_records_verify
      ⟨KNOT_EOK, false, true, fun _ => KNOT_EOK,
        fun i => if i = 0 then 100 else 300⟩
      ⟨⟨48, 3600, [[1]]⟩, ⟨60, 0, [[2]]⟩, ⟨59, 0, []⟩, ⟨46, 3600, [[3]]⟩⟩
      ⟨0, false⟩ 50 200).1 = KNOT_ESOON_EXPIRE :=
  key_records_verify_soon_expire _ _ ⟨0, false⟩ 50 200 rfl rfl
    (fun _ => rfl)

/-- C10: `key_records_verify` overwrites the context's current-time field
with the caller-supplied timestamp, and the mutation persists in the returned
context on success and on every failure path alike. -/
theorem key_records_verify_sets_now (o : VerifyOracle) (r : key_records_t)
    (kctx : kdnssec_ctx_t) (timestamp min_valid : Nat) :
    (key_records_verify o r kctx timestamp min_valid).2.now = timestamp := by
  unfold key_records_verify
  dsimp only
  split_ifs <;> rfl

/-! ### Key-size policy table (claims C7 and C8)

Embedded from `src/libdnssec/key/algorithm.c` (sampled as part_001). -/

/-- DNSSEC algorithm number: RSA/SHA-1. -/
def DNSSEC_KEY_ALGORITHM_RSA_SHA1 : Nat := 5

/-- DNSSEC algorithm number: RSA/SHA-1/NSEC3. -/
def DNSSEC_KEY_ALGORITHM_RSA_SHA1_NSEC3 : Nat := 7

/-- DNSSEC algorithm number: RSA/SHA-256. -/
def DNSSEC_KEY_ALGORITHM_RSA_SHA256 : Nat := 8

/-- DNSSEC algorithm number: RSA/SHA-512. -/
def DNSSEC_KEY_ALGORITHM_RSA_SHA512 : Nat := 10

/-- DNSSEC algorithm number: ECDSA P-256/SHA-256. -/
def DNSSEC_KEY_ALGORITHM_ECDSA_P256_SHA256 : Nat := 13

/-- DNSSEC algorithm number: ECDSA P-384/SHA-384. -/
def DNSSEC_KEY_ALGORITHM_ECDSA_P384_SHA384 : Nat := 14

/-- DNSSEC algorithm number: Ed25519. -/
def DNSSEC_KEY_ALGORITHM_ED25519 : Nat := 15

/-- DNSSEC algorithm number: Ed448. -/
def DNSSEC_KEY_ALGORITHM_ED448 : Nat := 16

/-- Embeds `struct limits` (`algorithm.c`): per-family key-size bounds, default, and
an optional extra validation hook (unset in every entry of the table). -/
structure limits where
  min : Nat
  max : Nat
  deflt : Nat
  validate : Option (Nat → Bool)

/-- The `RSA` limits entry. -/
def RSA_limits : limits := ⟨1024, 4096, 2048, none⟩

/-- The `EC256` limits entry. -/
def EC256_limits : limits := ⟨256, 256, 256, none⟩

/-- The `EC384` limits entry. -/
def EC384_limits : limits := ⟨384, 384, 384, none⟩

/-- The `ED25519` limits entry. -/
def ED25519_limits : limits := ⟨256, 256, 256, none⟩

/-- The `ED448` limits entry. -/
def ED448_limits : limits := ⟨456, 456, 456, none⟩

/-- Embeds `get_limits` (`algorithm.c`): the per-algorithm policy table; NULL
(`none`) for any unrecognized algorithm. -/
def get_limits (algorithm : Nat) : Option limits :=
  if algorithm = DNSSEC_KEY_ALGORITHM_RSA_SHA1 ∨
     algorithm = DNSSEC_KEY_ALGORITHM_RSA_SHA1_NSEC3 ∨
     algorithm = DNSSEC_KEY_ALGORITHM_RSA_SHA256 ∨
     algorithm = DNSSEC_KEY_ALGORITHM_RSA_SHA512 then some RSA_limits
  else if algorithm = DNSSEC_KEY_ALGORITHM_ECDSA_P256_SHA256 then some EC256_limits
  else if algorithm = DNSSEC_KEY_ALGORITHM_ECDSA_P384_SHA384 then some EC384_limits
  else if algorithm = DNSSEC_KEY_ALGORITHM_ED25519 then some ED25519_limits
  else if algorithm = DNSSEC_KEY_ALGORITHM_ED448 then some ED448_limits
  else none

/-- Embeds `dnssec_algorithm_reproducible` (`algorithm.c`): Ed25519/Ed448 are always
reproducible, the two ECDSA variants are reproducible iff `enabled`, every
other algorithm is not. -/
def dnssec_algorithm_reproducible (algorithm : Nat) (enabled : Bool) : Bool :=
  if algorithm = DNSSEC_KEY_ALGORITHM_ED25519 ∨
     algorithm = DNSSEC_KEY_ALGORITHM_ED448 then true
  else if algorithm = DNSSEC_KEY_ALGORITHM_ECDSA_P256_SHA256 ∨
          algorithm = DNSSEC_KEY_ALGORITHM_ECDSA_P384_SHA384 then enabled
  else false

/-- Embeds `dnssec_algorithm_key_size_range` (`algorithm.c`): the (min, max) bounds
for a recognized algorithm, DNSSEC_INVALID_KEY_ALGORITHM otherwise. (The C
additionally returns DNSSEC_EINVAL when both out-pointers are NULL, a
pointer-API detail with no counterpart in the model.) -/
def dnssec_algorithm_key_size_range (algorithm : Nat) : Except Int (Nat × Nat) :=
  match get_limits algorithm with
  | none => .error DNSSEC_INVALID_KEY_ALGORITHM
  | some l => .ok (l.min, l.max)

/-- Embeds `dnssec_algorithm_key_size_check` (`algorithm.c`): the size is within the
family's bounds and passes the optional validation hook; false for any
unrecognized algorithm. -/
def dnssec_algorithm_key_size_check (algorithm : Nat) (bits : Nat) : Bool :=
  match get_limits algorithm with
  | none => false
  | some l =>
    if bits < l.min ∨ l.max < bits then false
    else
      match l.validate with
      | some v => v bits
      | none => true

/-- Embeds `dnssec_algorithm_key_size_default` (`algorithm.c`): the family default,
0 for any unrecognized algorithm. -/
def dnssec_algorithm_key_size_default (algorithm : Nat) : Nat :=
  match get_limits algorithm with
  | none => 0
  | some l => l.deflt

/-- C7: the key-size policy accepts exactly the per-family bounds — RSA
variants 1024..4096 with default 2048, ECDSA P-256 exactly 256, P-384 exactly
384, Ed25519 exactly 256, Ed448 exactly 456 — and for any unrecognized
algorithm the size check is false, the range query fails with
DNSSEC_INVALID_KEY_ALGORITHM, and the default is 0. -/
theorem dnssec_algorithm_key_size_policy (bits a : Nat) :
    (∀ alg ∈ [DNSSEC_KEY_ALGORITHM_RSA_SHA1, DNSSEC_KEY_ALGORITHM_RSA_SHA1_NSEC3,
        DNSSEC_KEY_ALGORITHM_RSA_SHA256, DNSSEC_KEY_ALGORITHM_RSA_SHA512],
      (dnssec_algorithm_key_size_check alg bits = true ↔ 1024 ≤ bits ∧ bits ≤ 4096) ∧
      dnssec_algorithm_key_size_default alg = 2048) ∧
    ((dnssec_algorithm_key_size_check DNSSEC_KEY_ALGORITHM_ECDSA_P256_SHA256 bits = true ↔
        bits = 256) ∧
      dnssec_algorithm_key_size_default DNSSEC_KEY_ALGORITHM_ECDSA_P256_SHA256 = 256) ∧
    ((dnssec_algorithm_key_size_check DNSSEC_KEY_ALGORITHM_ECDSA_P384_SHA384 bits = true ↔
        bits = 384) ∧
      dnssec_algorithm_key_size_default DNSSEC_KEY_ALGORITHM_ECDSA_P384_SHA384 = 384) ∧
    ((dnssec_algorithm_key_size_check DNSSEC_KEY_ALGORITHM_ED25519 bits = true ↔
        bits = 256) ∧
      dnssec_algorithm_key_size_default DNSSEC_KEY_ALGORITHM_ED25519 = 256) ∧
    ((dnssec_algorithm_key_size_check DNSSEC_KEY_ALGORITHM_ED448 bits = true ↔
        bits = 456) ∧
      dnssec_algorithm_key_size_default DNSSEC_KEY_ALGORITHM_ED448 = 456) ∧
    (a ∉ [DNSSEC_KEY_ALGORITHM_RSA_SHA1, DNSSEC_KEY_ALGORITHM_RSA_SHA1_NSEC3,
        DNSSEC_KEY_ALGORITHM_RSA_SHA256, DNSSEC_KEY_ALGORITHM_RSA_SHA512,
        DNSSEC_KEY_ALGORITHM_ECDSA_P256_SHA256, DNSSEC_KEY_ALGORITHM_ECDSA_P384_SHA384,
        DNSSEC_KEY_ALGORITHM_ED25519, DNSSEC_KEY_ALGORITHM_ED448] →
      dnssec_algorithm_key_size_check a bits = false ∧
      dnssec_algorithm_key_size_range a = .error DNSSEC_INVALID_KEY_ALGORITHM ∧
      dnssec_algorithm_key_size_default a = 0) := by
  have hga : a ∉ ([5, 7, 8, 10, 13, 14, 15, 16] : List Nat) → get_limits a = none := by
    intro hna
    simp only [List.mem_cons, List.mem_singleton, not_or] at hna
    simp [get_limits, DNSSEC_KEY_ALGORITHM_RSA_SHA1,
      DNSSEC_KEY_ALGORITHM_RSA_SHA1_NSEC3, DNSSEC_KEY_ALGORITHM_RSA_SHA256,
      DNSSEC_KEY_ALGORITHM_RSA_SHA512, DNSSEC_KEY_ALGORITHM_ECDSA_P256_SHA256,
      DNSSEC_KEY_ALGORITHM_ECDSA_P384_SHA384, DNSSEC_KEY_ALGORITHM_ED25519,
      DNSSEC_KEY_ALGORITHM_ED448, hna.1, hna.2.1, hna.2.2.1, hna.2.2.2.1,
      hna.2.2.2.2.1, hna.2.2.2.2.2.1, hna.2.2.2.2.2.2.1, hna.2.2.2.2.2.2.2]
  refine ⟨?_, ⟨?_, ?_⟩, ⟨?_, ?_⟩, ⟨?_, ?_⟩, ⟨?_, ?_⟩, fun hna => ?_⟩
  · intro alg halg
    fin_cases halg <;>
      constructor <;>
        simp [dnssec_algorithm_key_size_check, dnssec_algorithm_key_size_default,
          get_limits, RSA_limits, DNSSEC_KEY_ALGORITHM_RSA_SHA1,
          DNSSEC_KEY_ALGORITHM_RSA_SHA1_NSEC3, DNSSEC_KEY_ALGORITHM_RSA_SHA256,
          DNSSEC_KEY_ALGORITHM_RSA_SHA512]
  · simp [dnssec_algorithm_key_size_check, get_limits, EC256_limits,
      DNSSEC_KEY_ALGORITHM_ECDSA_P256_SHA256, DNSSEC_KEY_ALGORITHM_RSA_SHA1,
      DNSSEC_KEY_ALGORITHM_RSA_SHA1_NSEC3, DNSSEC_KEY_ALGORITHM_RSA_SHA256,
      DNSSEC_KEY_ALGORITHM_RSA_SHA512]
  · simp [dnssec_algorithm_key_size_default, get_limits, EC256_limits,
      DNSSEC_KEY_ALGORITHM_ECDSA_P256_SHA256, DNSSEC_KEY_ALGORITHM_RSA_SHA1,
      DNSSEC_KEY_ALGORITHM_RSA_SHA1_NSEC3, DNSSEC_KEY_ALGORITHM_RSA_SHA256,
      DNSSEC_KEY_ALGORITHM_RSA_SHA512]
  · simp [dnssec_algorithm_key_size_check, get_limits, EC384_limits,
      DNSSEC_KEY_ALGORITHM_ECDSA_P384_SHA384, DNSSEC_KEY_ALGORITHM_ECDSA_P256_SHA256,
      DNSSEC_KEY_ALGORITHM_RSA_SHA1, DNSSEC_KEY_ALGORITHM_RSA_SHA1_NSEC3,
      DNSSEC_KEY_ALGORITHM_RSA_SHA256, DNSSEC_KEY_ALGORITHM_RSA_SHA512]
  · simp [dnssec_algorithm_key_size_default, get_limits, EC384_limits,
      DNSSEC_KEY_ALGORITHM_ECDSA_P384_SHA384, DNSSEC_KEY_ALGORITHM_ECDSA_P256_SHA256,
      DNSSEC_KEY_ALGORITHM_RSA_SHA1, DNSSEC_KEY_ALGORITHM_RSA_SHA1_NSEC3,
      DNSSEC_KEY_ALGORITHM_RSA_SHA256, DNSSEC_KEY_ALGORITHM_RSA_SHA512]
  · simp [dnssec_algorithm_key_size_check, get_limits, ED25519_limits,
      DNSSEC_KEY_ALGORITHM_ED25519, DNSSEC_KEY_ALGORITHM_ECDSA_P384_SHA384,
      DNSSEC_KEY_ALGORITHM_ECDSA_P256_SHA256, DNSSEC_KEY_ALGORITHM_RSA_SHA1,
      DNSSEC_KEY_ALGORITHM_RSA_SHA1_NSEC3, DNSSEC_KEY_ALGORITHM_RSA_SHA256,
      DNSSEC_KEY_ALGORITHM_RSA_SHA512]
  · simp [dnssec_algorithm_key_size_default, get_limits, ED25519_limits,
      DNSSEC_KEY_ALGORITHM_ED25519, DNSSEC_KEY_ALGORITHM_ECDSA_P384_SHA384,
      DNSSEC_KEY_ALGORITHM_ECDSA_P256_SHA256, DNSSEC_KEY_ALGORITHM_RSA_SHA1,
      DNSSEC_KEY_ALGORITHM_RSA_SHA1_NSEC3, DNSSEC_KEY_ALGORITHM_RSA_SHA256,
      DNSSEC_KEY_ALGORITHM_RSA_SHA512]
  · simp [dnssec_algorithm_key_size_check, get_limits, ED448_limits,
      DNSSEC_KEY_ALGORITHM_ED448, DNSSEC_KEY_ALGORITHM_ED25519,
      DNSSEC_KEY_ALGORITHM_ECDSA_P384_SHA384, DNSSEC_KEY_ALGORITHM_ECDSA_P256_SHA256,
      DNSSEC_KEY_ALGORITHM_RSA_SHA1, DNSSEC_KEY_ALGORITHM_RSA_SHA1_NSEC3,
      DNSSEC_KEY_ALGORITHM_RSA_SHA256, DNSSEC_KEY_ALGORITHM_RSA_SHA512]
  · simp [dnssec_algorithm_key_size_default, get_limits, ED448_limits,
      DNSSEC_KEY_ALGORITHM_ED448, DNSSEC_KEY_ALGORITHM_ED25519,
      DNSSEC_KEY_ALGORITHM_ECDSA_P384_SHA384, DNSSEC_KEY_ALGORITHM_ECDSA_P256_SHA256,
      DNSSEC_KEY_ALGORITHM_RSA_SHA1, DNSSEC_KEY_ALGORITHM_RSA_SHA1_NSEC3,
      DNSSEC_KEY_ALGORITHM_RSA_SHA256, DNSSEC_KEY_ALGORITHM_RSA_SHA512]
  · have hnone := hga (by simpa [DNSSEC_KEY_ALGORITHM_RSA_SHA1,
      DNSSEC_KEY_ALGORITHM_RSA_SHA1_NSEC3, DNSSEC_KEY_ALGORITHM_RSA_SHA256,
      DNSSEC_KEY_ALGORITHM_RSA_SHA512, DNSSEC_KEY_ALGORITHM_ECDSA_P256_SHA256,
      DNSSEC_KEY_ALGORITHM_ECDSA_P384_SHA384, DNSSEC_KEY_ALGORITHM_ED25519,
      DNSSEC_KEY_ALGORITHM_ED448] using hna)
    refine ⟨?_, ?_, ?_⟩ <;>
      simp [dnssec_algorithm_key_size_check, dnssec_algorithm_key_size_range,
        dnssec_algorithm_key_size_default, hnone]

/-- C7 witness: concrete checks — 2048-bit RSA/SHA-256 accepted, 512-bit
rejected, and algorithm 200 is unrecognized on all three queries. -/
theorem dnssec_algorithm_key_size_policy_witness :
    dnssec_algorithm_key_size_check DNSSEC_KEY_ALGORITHM_RSA_SHA256 2048 = true ∧
    dnssec_algorithm_key_size_check 200 512 = false ∧
    dnssec_algorithm_key_size_range 200 = .error DNSSEC_INVALID_KEY_ALGORITHM ∧
    dnssec_algorithm_key_size_default 200 = 0 :=
  ⟨((dnssec_algorithm_key_size_policy 2048 200).1
      DNSSEC_KEY_ALGORITHM_RSA_SHA256 (by decide)).1.mpr (by decide),
   ((dnssec_algorithm_key_size_policy 512 200).2.2.2.2.2 (by decide)).1,
   ((dnssec_algorithm_key_size_policy 512 200).2.2.2.2.2 (by decide)).2.1,
   ((dnssec_algorithm_key_size_policy 512 200).2.2.2.2.2 (by decide)).2.2⟩

/-- C8: the reproducible-signature capability is true for Ed25519 and Ed448
for every value of `enabled`, equals `enabled` for the two ECDSA variants,
and is false for every other algorithm (all RSA variants included). -/
theorem dnssec_algorithm_reproducible_spec (a : Nat) (enabled : Bool) :
    ((a = DNSSEC_KEY_ALGORITHM_ED25519 ∨ a = DNSSEC_KEY_ALGORITHM_ED448) →
      dnssec_algorithm_reproducible a enabled = true) ∧
    ((a = DNSSEC_KEY_ALGORITHM_ECDSA_P256_SHA256 ∨
        a = DNSSEC_KEY_ALGORITHM_ECDSA_P384_SHA384) →
      dnssec_algorithm_reproducible a enabled = enabled) ∧
    (a ∉ [DNSSEC_KEY_ALGORITHM_ECDSA_P256_SHA256,
        DNSSEC_KEY_ALGORITHM_ECDSA_P384_SHA384, DNSSEC_KEY_ALGORITHM_ED25519,
        DNSSEC_KEY_ALGORITHM_ED448] →
      dnssec_algorithm_reproducible a enabled = false) := by
  refine ⟨fun h => ?_, fun h => ?_, fun h => ?_⟩
  · rcases h with h | h <;>
      simp_all [dnssec_algorithm_reproducible, DNSSEC_KEY_ALGORITHM_ED25519,
        DNSSEC_KEY_ALGORITHM_ED448, DNSSEC_KEY_ALGORITHM_ECDSA_P256_SHA256,
        DNSSEC_KEY_ALGORITHM_ECDSA_P384_SHA384]
  · rcases h with h | h <;>
      simp_all [dnssec_algorithm_reproducible, DNSSEC_KEY_ALGORITHM_ED25519,
        DNSSEC_KEY_ALGORITHM_ED448, DNSSEC_KEY_ALGORITHM_ECDSA_P256_SHA256,
        DNSSEC_KEY_ALGORITHM_ECDSA_P384_SHA384]
  · simp only [List.mem_cons, List.mem_singleton, not_or] at h
    simp_all [dnssec_algorithm_reproducible, DNSSEC_KEY_ALGORITHM_ED25519,
      DNSSEC_KEY_ALGORITHM_ED448, DNSSEC_KEY_ALGORITHM_ECDSA_P256_SHA256,
      DNSSEC_KEY_ALGORITHM_ECDSA_P384_SHA384]

/-- C8 witness: Ed25519 reproducible with enabled = false, ECDSA P-256 tracks
enabled, RSA/SHA-256 never reproducible. -/
theorem dnssec_algorithm_reproducible_spec_witness :
    dnssec_algorithm_reproducible DNSSEC_KEY_ALGORITHM_ED25519 false = true ∧
    dnssec_algorithm_reproducible DNSSEC_KEY_ALGORITHM_ECDSA_P256_SHA256 false = false ∧
    dnssec_algorithm_reproducible DNSSEC_KEY_ALGORITHM_RSA_SHA256 true = false :=
  ⟨(dnssec_algorithm_reproducible_spec DNSSEC_KEY_ALGORITHM_ED25519 false).1
      (Or.inl rfl),
   (dnssec_algorithm_reproducible_spec DNSSEC_KEY_ALGORITHM_ECDSA_P256_SHA256
      false).2.1 (Or.inl rfl),
   (dnssec_algorithm_reproducible_spec DNSSEC_KEY_ALGORITHM_RSA_SHA256
      true).2.2 (by decide)⟩

/-! ### Zone measurement (claims C6 and C9)

Embedded from `src/knot/zone/measure.c`. The accumulator type and mode enums
live in `measure.h`, which is not among the sampled sources; their shape is
forced by the spec's measurement-accumulator description and by every use in
`measure.c`. -/

/-- Size-measuring mode (`measure.h`). -/
inductive measure_size_t
  | NONE
  | WHOLE
  | DIFF
deriving Repr, DecidableEq

/-- TTL-measuring mode (`measure.h`). -/
inductive measure_ttl_t
  | NONE
  | WHOLE
  | DIFF
  | LIMIT
deriving Repr, DecidableEq

/-- Modelled from the spec: the measurement accumulator `measure_t`
(`measure.h`, missing from the sampled sources): the two modes, the net zone
byte-size accumulator (a C `size_t`, kept reduced modulo 2^64), the maximum
TTL over added records, the maximum TTL over removed records, and the early
stop bound for limit mode. -/
structure measure_t where
  how_size : measure_size_t
  how_ttl : measure_ttl_t
  zone_size : Nat
  max_ttl : Nat
  rem_max_ttl : Nat
  limit_max_ttl : Nat
deriving Repr, DecidableEq

/-- One `struct rr_data` entry of a node, as `measure.c` reads it: the rr
type, the set TTL, for RRSIG entries the original TTLs carried in each rdata
(what `knot_rrsig_original_ttl` extracts), and the wire size that
`knot_rrset_size` reports for the corresponding RRset. -/
structure rr_data where
  rtype : Nat
  ttl : Nat
  orig_ttls : List Nat
  size : Nat
deriving Repr, DecidableEq

/-- A zone node as `measure.c` sees it: its own rr_data entries and those of
its binode counterpart (`binode_counterpart`). -/
structure zone_node_t where
  rrs : List rr_data
  counterpart_rrs : List rr_data
deriving Repr, DecidableEq

/-- Embeds `size_t` addition (64-bit wrap). -/
def add64 (a b : Nat) : Nat := (a + b) % 18446744073709551616

/-- Embeds `size_t` subtraction (64-bit wrap). -/
def sub64 (a b : Nat) : Nat :=
  (a + (18446744073709551616 - b % 18446744073709551616)) % 18446744073709551616

/-- Embeds `rrset_max_ttl` (`measure.c`): the set TTL, except for RRSIG where it is
the maximum original TTL over the rdatas. -/
def rrset_max_ttl (r : rr_data) : Nat :=
  if r.rtype = KNOT_RRTYPE_RRSIG then r.orig_ttls.foldl max 0 else r.ttl

/-- Embeds `knot_measure_node` (`measure.c`): returns false immediately (touching
nothing) when nothing more can be measured; otherwise accumulates size and
max TTL over the node's rrsets and, in a diff mode, subtracts/collects over
the binode counterpart. -/
def knot_measure_node (node : zone_node_t) (m : measure_t) :
    Bool × measure_t :=
  if m.how_size = measure_size_t.NONE ∧ (m.how_ttl = measure_ttl_t.NONE ∨
      (m.how_ttl = measure_ttl_t.LIMIT ∧ m.limit_max_ttl ≤ m.max_ttl)) then
    (false, m)
  else
    let m1 := node.rrs.foldl (fun acc rd =>
      let acc := if m.how_size ≠ measure_size_t.NONE then
        { acc with zone_size := add64 acc.zone_size rd.size } else acc
      if m.how_ttl ≠ measure_ttl_t.NONE then
        { acc with max_ttl := max acc.max_ttl (rrset_max_ttl rd) } else acc) m
    if m.how_size ≠ measure_size_t.DIFF ∧ m.how_ttl ≠ measure_ttl_t.DIFF then
      (true, m1)
    else
      let m2 := node.counterpart_rrs.foldl (fun acc rd =>
        let acc := if m.how_size = measure_size_t.DIFF then
          { acc with zone_size := sub64 acc.zone_size rd.size } else acc
        if m.how_ttl = measure_ttl_t.DIFF then
          { acc with rem_max_ttl := max acc.rem_max_ttl (rrset_max_ttl rd) }
        else acc) m1
      (true, m2)

/-- Zone contents as the measuring code reads them: the nodes (the zone tree
and NSEC3 tree flattened into one iteration order), plus the recorded size
and maximum TTL. -/
structure zone_contents_t where
  nodes : List zone_node_t
  size : Nat
  max_ttl : Nat
deriving Repr, DecidableEq

/-- The iteration of `re_measure_max_ttl`: measure nodes until
`knot_measure_node` reports that nothing more can change. -/
def measure_loop : List zone_node_t → measure_t → measure_t
  | [], m => m
  | n :: ns, m =>
    let p := knot_measure_node n m
    if p.1 then measure_loop ns p.2 else p.2

/-- Embeds `re_measure_max_ttl` (`measure.c`): whole-zone TTL re-scan in LIMIT mode
with the old maximum as the early stop bound. (The C returns `limit` when the
tree iterator fails to allocate; allocation failure is outside the model.) -/
def re_measure_max_ttl (zone : zone_contents_t) (limit : Nat) : Nat :=
  (measure_loop zone.nodes
    ⟨measure_size_t.NONE, measure_ttl_t.LIMIT, 0, 0, 0, limit⟩).max_ttl

/-- The zone update as `knot_measure_finish_update` reads it: the old
contents' recorded size and max TTL (`update->zone->contents`) and the new
contents (`update->new_cont`). -/
structure zone_update_t where
  old_size : Nat
  old_max_ttl : Nat
  new_cont : zone_contents_t
deriving Repr, DecidableEq

/-- Embeds `knot_measure_finish_update` (`measure.c`): store the measured size (raw,
or old plus delta), then the measured max TTL; in TTL-diff mode fall back to
a whole-zone re-scan only when the accumulated maximum cannot be shown safe. -/
def knot_measure_finish_update (m : measure_t) (update : zone_update_t) :
    zone_update_t :=
  let u := match m.how_size with
    | measure_size_t.NONE => update
    | measure_size_t.WHOLE =>
      { update with new_cont := { update.new_cont with size := m.zone_size } }
    | measure_size_t.DIFF =>
      { update with new_cont :=
        { update.new_cont with size := add64 update.old_size m.zone_size } }
  match m.how_ttl with
  | measure_ttl_t.NONE => u
  | measure_ttl_t.WHOLE =>
    { u with new_cont := { u.new_cont with max_ttl := m.max_ttl } }
  | measure_ttl_t.LIMIT =>
    { u with new_cont := { u.new_cont with max_ttl := m.max_ttl } }
  | measure_ttl_t.DIFF =>
    if update.old_max_ttl ≤ m.max_ttl then
      { u with new_cont := { u.new_cont with max_ttl := m.max_ttl } }
    else if m.rem_max_ttl < update.old_max_ttl then
      { u with new_cont := { u.new_cont with max_ttl := update.old_max_ttl } }
    else
      let nm := re_measure_max_ttl u.new_cont update.old_max_ttl
      { u with new_cont := { u.new_cont with max_ttl := nm } }

/-- C6: in TTL-diff mode, `knot_measure_finish_update` triggers the
whole-zone fallback re-scan exactly when the accumulated added-records
maximum is strictly below the old zone maximum and the removed-records
maximum is at least the old zone maximum; in every other case the new
maximum is the larger of the accumulated maximum and the old zone maximum,
with no dependence on the zone contents (no re-scan). -/
theorem knot_measure_finish_update_ttl_diff (m : measure_t)
    (update : zone_update_t) (hd : m.how_ttl = measure_ttl_t.DIFF) :
    ((update.old_max_ttl ≤ m.max_ttl ∨ m.rem_max_ttl < update.old_max_ttl) →
      (knot_measure_finish_update m update).new_cont.max_ttl =
        max m.max_ttl update.old_max_ttl) ∧
    ((m.max_ttl < update.old_max_ttl ∧ update.old_max_ttl ≤ m.rem_max_ttl) →
      (knot_measure_finish_update m update).new_cont.max_ttl =
        re_measure_max_ttl update.new_cont update.old_max_ttl) := by
  obtain ⟨hsz, httl, zs, mt, rmt, lmt⟩ := m
  obtain ⟨osz, omt, nc⟩ := update
  simp only at hd
  subst hd
  constructor <;> intro hcase <;> cases hsz <;>
    simp only [knot_measure_finish_update] <;>
    split_ifs <;>
    simp_all [re_measure_max_ttl] <;>
    omega

/-- C6 witness: concrete TTL-diff finishes — a non-decreasing case taking the
accumulated maximum, and a plausibly-decreasing case where the fallback runs
over the (empty) new contents and yields 0. -/
theorem knot_measure_finish_update_ttl_diff_witness :
    (knot_measure_finish_update
      ⟨measure_size_t.NONE, measure_ttl_t.DIFF, 0, 10, 0, 0⟩
      ⟨0, 7, ⟨[], 0, 0⟩⟩).new_cont.max_ttl = 10 ∧
    (knot_measure_finish_update
      ⟨measure_size_t.NONE, measure_ttl_t.DIFF, 0, 3, 9, 0⟩
      ⟨0, 7, ⟨[], 0, 0⟩⟩).new_cont.max_ttl = 0 :=
  ⟨by
    have h := (knot_measure_finish_update_ttl_diff
      ⟨measure_size_t.NONE, measure_ttl_t.DIFF, 0, 10, 0, 0⟩
      ⟨0, 7, ⟨[], 0, 0⟩⟩ rfl).1 (by decide)
    simpa using h,
   by
    have h := (knot_measure_finish_update_ttl_diff
      ⟨measure_size_t.NONE, measure_ttl_t.DIFF, 0, 3, 9, 0⟩
      ⟨0, 7, ⟨[], 0, 0⟩⟩ rfl).2 (by decide)
    simpa [re_measure_max_ttl, measure_loop] using h⟩

/-- C9: `knot_measure_node` returns false exactly when no further measuring
can change the result — size measuring off and TTL measuring off or in limit
mode with the accumulated maximum already at or above the limit — and
whenever it returns false it leaves the accumulator completely unchanged. -/
theorem knot_measure_node_early_stop (node : zone_node_t) (m : measure_t) :
    ((knot_measure_node node m).1 = false ↔
      (m.how_size = measure_size_t.NONE ∧ (m.how_ttl = measure_ttl_t.NONE ∨
        (m.how_ttl = measure_ttl_t.LIMIT ∧ m.limit_max_ttl ≤ m.max_ttl)))) ∧
    ((knot_measure_node node m).1 = false → (knot_measure_node node m).2 = m) := by
  unfold knot_measure_node
  split_ifs with h1 h2 <;> simp_all

/-- C9 witness: a saturated limit-mode accumulator stops early and is
returned unchanged by a node that would otherwise raise the maximum. -/
theorem knot_measure_node_early_stop_witness :
    (knot_measure_node ⟨[⟨1, 99, [], 4⟩], []⟩
        ⟨measure_size_t.NONE, measure_ttl_t.LIMIT, 0, 5, 0, 5⟩).1 = false ∧
    (knot_measure_node ⟨[⟨1, 99, [], 4⟩], []⟩
        ⟨measure_size_t.NONE, measure_ttl_t.LIMIT, 0, 5, 0, 5⟩).2 =
      ⟨measure_size_t.NONE, measure_ttl_t.LIMIT, 0, 5, 0, 5⟩ :=
  ⟨(knot_measure_node_early_stop ⟨[⟨1, 99, [], 4⟩], []⟩
      ⟨measure_size_t.NONE, measure_ttl_t.LIMIT, 0, 5, 0, 5⟩).1.mpr
      (by decide),
   (knot_measure_node_early_stop ⟨[⟨1, 99, [], 4⟩], []⟩
      ⟨measure_size_t.NONE, measure_ttl_t.LIMIT, 0, 5, 0, 5⟩).2 (by decide)⟩
